import Mathlib

/-!
Shallow embedding of the brief-sales-hub CRM front-end logic.

The embedded code lives in:
  * `src/src/components/MetricsDialog.tsx`   — metrics aggregator
  * `src/src/components/Dashboard.tsx`       — pipeline board (drag, delete, currency badge)
  * `src/src/components/AddProspectDialog.tsx` — create-form payload construction
  * `src/unnamed/part_000`                   — auth screen (sign-up error mapping)

JavaScript numbers are modelled as exact rationals (ℚ); `toFixed(1)` ties are
resolved as the ECMAScript spec does for non-negative arguments (pick the
larger candidate, i.e. round half up).  Remote calls are modelled by an
explicit boolean "the request succeeded" input, and handlers return the new
in-memory list together with flags recording whether a request was issued and
whether an error was reported to the user.
-/

namespace CRM

/-- The pipeline stage enumeration `'new' | 'in_talks' | 'closed'`
(from the `Prospect` interface in `Dashboard.tsx`). -/
inductive Stage where
  | new
  | in_talks
  | closed
deriving DecidableEq

/-- The `Prospect` record shape shared by `Dashboard.tsx` and
`MetricsDialog.tsx`.  Optional fields are `Option`, `value` is an exact
rational standing for the JS number. -/
structure Prospect where
  id : String
  user_id : String
  full_name : String
  email : String
  phone : Option String := none
  company : Option String := none
  stage : Stage
  value : Option ℚ := none
  notes : Option String := none
  created_at : String := ""
deriving DecidableEq

/-! ### Metrics aggregator (`MetricsDialog.tsx`, lines 39–49) -/

/-- `const totalProspects = prospects.length` (MetricsDialog.tsx line 39). -/
def totalProspects (prospects : List Prospect) : Nat :=
  prospects.length

/-- `prospects.filter(p => p.stage === 'new').length` (line 40). -/
def newProspects (prospects : List Prospect) : Nat :=
  (prospects.filter (fun p => p.stage == Stage.new)).length

/-- `prospects.filter(p => p.stage === 'in_talks').length` (line 41). -/
def inTalksProspects (prospects : List Prospect) : Nat :=
  (prospects.filter (fun p => p.stage == Stage.in_talks)).length

/-- `prospects.filter(p => p.stage === 'closed').length` (line 42). -/
def closedProspects (prospects : List Prospect) : Nat :=
  (prospects.filter (fun p => p.stage == Stage.closed)).length

/-- `((closed / total) * 100).toFixed(1)` over exact rationals: the rounded
value `n` of `1000 * closed / total` (half up, the larger candidate as in
ECMAScript `toFixed` for non-negative arguments) rendered as `n/10 "." n%10`.
`(closed * 2000 + total) / (2 * total)` in natural division is exactly
`⌊1000 * closed / total + 1/2⌋`. -/
def toFixed1 (closed total : Nat) : String :=
  let n := (closed * 2000 + total) / (2 * total)
  toString (n / 10) ++ "." ++ toString (n % 10)

/-- `totalProspects > 0 ? ((closedProspects / totalProspects) * 100).toFixed(1) : '0'`
(MetricsDialog.tsx line 44).  Note the zero branch is the string `"0"`. -/
def conversionRate (prospects : List Prospect) : String :=
  if 0 < totalProspects prospects then
    toFixed1 (closedProspects prospects) (totalProspects prospects)
  else "0"

/-- `prospects.reduce((sum, p) => sum + (p.value || 0), 0)` (line 46). -/
def totalValue (prospects : List Prospect) : ℚ :=
  prospects.foldl (fun sum p => sum + (p.value.getD 0)) 0

/-- `prospects.filter(p => p.stage === 'closed').reduce((sum, p) => sum + (p.value || 0), 0)`
(lines 47–49). -/
def closedValue (prospects : List Prospect) : ℚ :=
  ((prospects.filter (fun p => p.stage == Stage.closed)).foldl
    (fun sum p => sum + (p.value.getD 0)) 0)

/-- Modelled from the spec sentence "round(100 × closed/total, 1)" rendered
with one decimal place: round `q` to one decimal (half up) and print the
integer and tenths digits separated by a dot.  Used to compare the source's
`toFixed1` against the spec's wording. -/
def renderRound1 (q : ℚ) : String :=
  let n := ⌊q * 10 + 1 / 2⌋₊
  toString (n / 10) ++ "." ++ toString (n % 10)

/-! ### Pipeline board: drag handler (`Dashboard.tsx`, lines 85–125) -/

/-- The part of the `react-beautiful-dnd` drag-end event the handler reads:
`result.source.droppableId`, `result.destination?.droppableId` (absent when
dropped outside any column) and `result.draggableId`.  Droppable ids are the
three stage keys of `stageConfig`. -/
structure DragResult where
  source : Stage
  destination : Option Stage
  draggableId : String

/-- The observable outcome of a board operation: the new in-memory list,
whether an update request was issued to the storage collaborator, and whether
an error toast was shown. -/
structure BoardOutcome where
  prospects : List Prospect
  requestIssued : Bool
  errorReported : Bool
deriving DecidableEq

/-- The map body of the success branch
`prospect.id === draggableId ? { ...prospect, stage: newStage } : prospect`
(Dashboard.tsx lines 106–110). -/
def updateStage (draggableId : String) (newStage : Stage) (p : Prospect) : Prospect :=
  if p.id = draggableId then { p with stage := newStage } else p

/-- `handleDragEnd` (Dashboard.tsx lines 85–125).  Early return when
`result.destination` is absent and when source and destination columns
coincide (no request issued in either case).  Otherwise an update request is
issued; `remoteOk` is whether it succeeded.  On success `setProspects` maps
`updateStage` over the list; on failure the list is untouched and an error
toast is shown. -/
def handleDragEnd (prospects : List Prospect) (result : DragResult)
    (remoteOk : Bool) : BoardOutcome :=
  match result.destination with
  | none => ⟨prospects, false, false⟩
  | some dest =>
    if result.source = dest then ⟨prospects, false, false⟩
    else if remoteOk then
      ⟨prospects.map (updateStage result.draggableId dest), true, false⟩
    else ⟨prospects, true, true⟩

/-- `handleDeleteProspect` (Dashboard.tsx lines 127–149): issues a delete
request; on success `setProspects(prev => prev.filter(p => p.id !== prospectId))`,
on failure the list is untouched and an error toast is shown. -/
def handleDeleteProspect (prospects : List Prospect) (prospectId : String)
    (remoteOk : Bool) : BoardOutcome :=
  if remoteOk then
    ⟨prospects.filter (fun p => p.id != prospectId), true, false⟩
  else ⟨prospects, true, true⟩

/-! ### Dashboard currency badge (`Dashboard.tsx`, lines 160–166 and 305–309) -/

/-- Three-digit zero padding for thousands groups. -/
def pad3 (m : Nat) : String :=
  if m < 10 then "00" ++ toString m
  else if m < 100 then "0" ++ toString m
  else toString m

/-- Two-digit zero padding for cents. -/
def pad2 (m : Nat) : String :=
  if m < 10 then "0" ++ toString m else toString m

/-- `en-US` digit grouping: groups of three separated by commas. -/
def groupDigits (n : Nat) : String :=
  if _h : n < 1000 then toString n
  else groupDigits (n / 1000) ++ "," ++ pad3 (n % 1000)
termination_by n
decreasing_by exact Nat.div_lt_self (by omega) (by omega)

/-- `Intl.NumberFormat('en-US', { style: 'currency', currency: 'USD' }).format`,
modelled over exact rationals: two fraction digits, half-away-from-zero
rounding (the default `halfExpand` mode), comma grouping, `$` sign. -/
def intlFormatUSD (a : ℚ) : String :=
  let n : Nat := ⌊|a| * 100 + 1 / 2⌋₊
  let s := "$" ++ groupDigits (n / 100) ++ "." ++ pad2 (n % 100)
  if a < 0 then "-" ++ s else s

/-- `formatCurrency` (Dashboard.tsx lines 160–166):
`if (!amount) return ''` — an absent amount and the (falsy) amount `0` both
yield the empty string — otherwise the Intl USD format. -/
def formatCurrency (amount : Option ℚ) : String :=
  match amount with
  | none => ""
  | some a => if a = 0 then "" else intlFormatUSD a

/-- JavaScript truthiness of the optional number `prospect.value`:
`undefined` and `0` are falsy. -/
def jsTruthyNum (v : Option ℚ) : Bool :=
  match v with
  | none => false
  | some a => a != 0

/-- The monetary badge on a prospect card (Dashboard.tsx lines 305–309):
`{prospect.value && <Badge>{formatCurrency(prospect.value)}</Badge>}`.
Returns the badge text when the badge is rendered, `none` otherwise. -/
def valueBadge (p : Prospect) : Option String :=
  if jsTruthyNum p.value then some (formatCurrency p.value) else none

/-! ### Create form payload (`AddProspectDialog.tsx`, lines 29–38) -/

/-- The raw string content of the create form's fields; `FormData.get` on this
form always yields a string (empty when the user left the field blank; the
stage select carries `defaultValue="new"`). -/
structure AddProspectForm where
  fullName : String
  email : String
  phone : String
  company : String
  stage : String
  value : String
  notes : String

/-- The insert payload shape built by `handleSubmit`. -/
structure ProspectPayload where
  user_id : String
  full_name : String
  email : String
  phone : Option String
  company : Option String
  stage : String
  value : Option ℚ
  notes : Option String
deriving DecidableEq

/-- `s || null` on a string: the empty string is falsy and coerced to null. -/
def strOrNull (s : String) : Option String :=
  if s = "" then none else some s

/-- Digits of a numeral folded into a natural number. -/
def digitsToNat (cs : List Char) : Nat :=
  cs.foldl (fun n c => n * 10 + (c.toNat - 48)) 0

/-- JavaScript `parseFloat` restricted to plain decimal numerals (optional
sign, integer digits, optional fraction), which is all the `type="number"`
value field can hold; `none` models `NaN` (no digits at all). -/
def jsParseFloat (s : String) : Option ℚ :=
  let cs := s.toList
  let signAndRest : ℚ × List Char :=
    match cs with
    | '-' :: rest => (-1, rest)
    | '+' :: rest => (1, rest)
    | _ => (1, cs)
  let intDigits := signAndRest.2.takeWhile Char.isDigit
  let afterInt := signAndRest.2.dropWhile Char.isDigit
  let fracDigits : List Char :=
    match afterInt with
    | '.' :: r => r.takeWhile Char.isDigit
    | _ => []
  if intDigits.isEmpty && fracDigits.isEmpty then none
  else some (signAndRest.1 *
    ((digitsToNat intDigits : ℚ) + (digitsToNat fracDigits : ℚ) / (10 ^ fracDigits.length)))

/-- The `prospectData` object literal of `handleSubmit`
(AddProspectDialog.tsx lines 29–38): `phone`/`company`/`notes` via `|| null`,
`stage` via `|| 'new'`, `value` parsed by `parseFloat` only when the field
text is truthy (non-empty), else null. -/
def buildProspectData (userId : String) (f : AddProspectForm) : ProspectPayload :=
  { user_id := userId
    full_name := f.fullName
    email := f.email
    phone := strOrNull f.phone
    company := strOrNull f.company
    stage := if f.stage = "" then "new" else f.stage
    value := if f.value = "" then none else jsParseFloat f.value
    notes := strOrNull f.notes }

/-! ### Auth screen sign-up error mapping (`src/unnamed/part_000`, lines 55–79) -/

/-- Whether `needle` occurs at the start of `hay`. -/
def listStartsWith : List Char → List Char → Bool
  | [], _ => true
  | _ :: _, [] => false
  | a :: as, b :: bs => a == b && listStartsWith as bs

/-- Whether `needle` occurs contiguously anywhere in `hay`. -/
def listInfixOf (needle : List Char) : List Char → Bool
  | [] => needle.isEmpty
  | b :: bs => listStartsWith needle (b :: bs) || listInfixOf needle bs

/-- JavaScript `String.prototype.includes`. -/
def jsIncludes (s sub : String) : Bool :=
  listInfixOf sub.toList s.toList

/-- Toast variants used by the app. -/
inductive ToastVariant where
  | default
  | destructive
deriving DecidableEq

/-- The shape passed to `toast({...})`. -/
structure ToastMsg where
  title : String
  description : String
  variant : ToastVariant
deriving DecidableEq

/-- The error branch of `handleSignUp` (part_000 lines 57–70): when the
identity collaborator's error message contains `'already registered'` show
the "Account exists" toast, otherwise the generic "Sign up failed" toast
carrying `error.message` verbatim. -/
def signUpErrorToast (errMsg : String) : ToastMsg :=
  if jsIncludes errMsg "already registered" then
    { title := "Account exists"
      description := "This email is already registered. Please sign in instead."
      variant := ToastVariant.destructive }
  else
    { title := "Sign up failed"
      description := errMsg
      variant := ToastVariant.destructive }

/-! ### Concrete data used by the spec's worked scenario and by witnesses -/

/-- Scenario record `{stage: new, value: 1000}`. -/
def dNew : Prospect :=
  { id := "1", user_id := "u", full_name := "Ada", email := "ada@x.io",
    stage := Stage.new, value := some 1000 }

/-- Scenario record `{stage: in_talks, value: 500}`. -/
def dTalks : Prospect :=
  { id := "2", user_id := "u", full_name := "Bob", email := "bob@x.io",
    stage := Stage.in_talks, value := some 500 }

/-- Scenario record `{stage: closed, value: 2000}`. -/
def dClosed : Prospect :=
  { id := "3", user_id := "u", full_name := "Cleo", email := "cleo@x.io",
    stage := Stage.closed, value := some 2000 }

/-- The spec's worked-scenario prospect list. -/
def demoProspects : List Prospect := [dNew, dTalks, dClosed]

/-- A prospect whose deal value is the number `0` (admitted by the data
model's non-negativity constraint). -/
def zeroValueProspect : Prospect :=
  { id := "9", user_id := "u", full_name := "Zed", email := "zed@x.io",
    stage := Stage.new, value := some 0 }

/-- All fields except `stage` agree between `p` and `q`. -/
def sameExceptStage (p q : Prospect) : Prop :=
  q.id = p.id ∧ q.user_id = p.user_id ∧ q.full_name = p.full_name ∧
  q.email = p.email ∧ q.phone = p.phone ∧ q.company = p.company ∧
  q.value = p.value ∧ q.notes = p.notes ∧ q.created_at = p.created_at

/-! ### Helper lemmas -/

/-- Folding `+ f x` from `a` is `a` plus the sum of the images. -/
lemma foldl_add_eq_sum {α : Type} (f : α → ℚ) (l : List α) :
    ∀ a : ℚ, l.foldl (fun s p => s + f p) a = a + (l.map f).sum := by
  induction l with
  | nil => intro a; simp
  | cons x xs ih =>
    intro a
    simp only [List.foldl_cons, List.map_cons, List.sum_cons, ih]
    ring

/-- The lengths of a filter and its complement add to the full length. -/
lemma length_filter_not_add {α : Type} (P : α → Bool) (l : List α) :
    (l.filter fun a => !P a).length + (l.filter P).length = l.length := by
  induction l with
  | nil => rfl
  | cons x xs ih => cases hP : P x <;> simp [List.filter_cons, hP] <;> omega

/-- Sums of images over a filter and its complement add to the full sum. -/
lemma sum_filter_not_add {α : Type} (P : α → Bool) (f : α → ℚ) (l : List α) :
    (((l.filter fun a => !P a).map f).sum) + ((l.filter P).map f).sum
      = (l.map f).sum := by
  induction l with
  | nil => simp
  | cons x xs ih => cases hP : P x <;> simp [List.filter_cons, hP] <;> linarith

/-- Splitting a `Q`-filtered list by a second predicate `P` preserves length. -/
lemma length_filter_and_split {α : Type} (P Q : α → Bool) (l : List α) :
    (l.filter fun a => Q a && !P a).length + (l.filter fun a => Q a && P a).length
      = (l.filter Q).length := by
  induction l with
  | nil => rfl
  | cons x xs ih =>
    cases hP : P x <;> cases hQ : Q x <;> simp [List.filter_cons, hP, hQ] <;> omega

/-- Splitting a `Q`-filtered list by a second predicate `P` preserves the sum
of the images. -/
lemma sum_filter_and_split {α : Type} (P Q : α → Bool) (f : α → ℚ) (l : List α) :
    ((l.filter fun a => Q a && !P a).map f).sum
      + ((l.filter fun a => Q a && P a).map f).sum
      = ((l.filter Q).map f).sum := by
  induction l with
  | nil => simp
  | cons x xs ih =>
    cases hP : P x <;> cases hQ : Q x <;> simp [List.filter_cons, hP, hQ] <;> linarith

/-- For a positive denominator, the source's natural-number rendering of
`toFixed(1)` agrees with rounding the exact rational `c * 100 / t` to one
decimal place. -/
lemma toFixed1_eq_renderRound1 (c t : Nat) (ht : 0 < t) :
    toFixed1 c t = renderRound1 ((c : ℚ) * 100 / (t : ℚ)) := by
  have ht' : ((t : ℚ)) ≠ 0 := Nat.cast_ne_zero.mpr ht.ne'
  have key : ((c : ℚ) * 100 / (t : ℚ)) * 10 + 1 / 2
      = ((c * 2000 + t : ℕ) : ℚ) / ((2 * t : ℕ) : ℚ) := by
    push_cast
    field_simp
    ring
  unfold toFixed1 renderRound1
  rw [key, Nat.floor_div_nat, Nat.floor_natCast]

/-! ### Claim theorems -/

/-- Claim C1, counterexample: on the empty prospect list the aggregator's
conversion rate is rendered as `"0"`, not `"0.0"` as the claim states. -/
theorem conversionRate_empty_cex :
    conversionRate ([] : List Prospect) ≠ "0.0" ∧
    conversionRate ([] : List Prospect) = "0" := by
  constructor <;> decide

/-- Claim C1 (amended): for every prospect list the conversion rate equals
round(100 × closed/total, 1) rendered with one decimal place when
total > 0, and is rendered as the bare string `"0"` (no decimal place)
when total = 0. -/
theorem conversionRate_renders_rounded_ratio (l : List Prospect) :
    conversionRate l =
      if totalProspects l = 0 then "0"
      else renderRound1 ((closedProspects l : ℚ) * 100 / (totalProspects l : ℚ)) := by
  unfold conversionRate
  rcases Nat.eq_zero_or_pos (totalProspects l) with h | h
  · simp [h]
  · rw [if_pos h, if_neg (by omega), toFixed1_eq_renderRound1 _ _ h]

/-- Claim C9: when the drag-end event has no destination (dropped outside any
column) the handler returns immediately: no update request is issued and the
in-memory list is unchanged. -/
theorem handleDragEnd_no_destination (l : List Prospect) (src : Stage)
    (did : String) (ok : Bool) :
    handleDragEnd l ⟨src, none, did⟩ ok = ⟨l, false, false⟩ :=
  rfl

/-- Claim C8: on the spec's worked scenario list the aggregator computes
total = 3, one prospect per stage, conversion rate rendered `"33.3"`,
pipeline value 3500 and closed value 2000. -/
theorem metrics_demo_scenario :
    totalProspects demoProspects = 3 ∧
    newProspects demoProspects = 1 ∧
    inTalksProspects demoProspects = 1 ∧
    closedProspects demoProspects = 1 ∧
    conversionRate demoProspects = "33.3" ∧
    totalValue demoProspects = 3500 ∧
    closedValue demoProspects = 2000 := by
  have hfilter : demoProspects.filter (fun p => p.stage == Stage.closed) = [dClosed] := by
    rfl
  refine ⟨by decide, by decide, by decide, by decide, by decide, ?_, ?_⟩
  · norm_num [totalValue, demoProspects, dNew, dTalks, dClosed]
  · unfold closedValue
    rw [hfilter]
    norm_num [dClosed]

/-- Claim C2: dragging record `did` from stage `src` to stage `dst` is a
no-op issuing no request when `src = dst`; when `src ≠ dst` and the remote
update succeeds, the new list is the pointwise `updateStage` image, in which
any record with a different id is untouched and a record with id `did` gets
stage `dst` with every other field unchanged. -/
theorem handleDragEnd_stage_change (l : List Prospect) (src dst : Stage)
    (did : String) :
    (src = dst → ∀ ok : Bool,
      handleDragEnd l ⟨src, some dst, did⟩ ok = ⟨l, false, false⟩) ∧
    (src ≠ dst →
      handleDragEnd l ⟨src, some dst, did⟩ true
          = ⟨l.map (updateStage did dst), true, false⟩ ∧
      ∀ p ∈ l,
        (p.id ≠ did → updateStage did dst p = p) ∧
        (p.id = did →
          (updateStage did dst p).stage = dst ∧
          sameExceptStage p (updateStage did dst p))) := by
  constructor
  · intro h ok
    simp [handleDragEnd, h]
  · intro h
    refine ⟨by simp [handleDragEnd, h], ?_⟩
    intro p _
    constructor
    · intro hne
      simp [updateStage, hne]
    · intro heq
      simp [updateStage, heq, sameExceptStage]

/-- Witness for claim C2 at concrete inputs: a same-stage drag on the
scenario list is a no-op, and a successful drag of record `"1"` from `new`
to `closed` yields the `updateStage` image with the request issued. -/
theorem handleDragEnd_stage_change_witness :
    handleDragEnd demoProspects ⟨Stage.new, some Stage.new, "1"⟩ true
        = ⟨demoProspects, false, false⟩ ∧
    handleDragEnd demoProspects ⟨Stage.new, some Stage.closed, "1"⟩ true
        = ⟨demoProspects.map (updateStage "1" Stage.closed), true, false⟩ :=
  ⟨(handleDragEnd_stage_change demoProspects Stage.new Stage.new "1").1 rfl true,
   ((handleDragEnd_stage_change demoProspects Stage.new Stage.closed "1").2
      (by decide)).1⟩

/-- Claim C3: when a stage-change drag's remote update fails, the handler
reports an error and leaves the in-memory list exactly as it was (the
request was issued, but no local mutation happened before success). -/
theorem handleDragEnd_failure_no_mutation (l : List Prospect) (src dst : Stage)
    (did : String) (h : src ≠ dst) :
    handleDragEnd l ⟨src, some dst, did⟩ false = ⟨l, true, true⟩ := by
  simp [handleDragEnd, h]

/-- Witness for claim C3: a failed drag of record `"1"` from `new` to
`closed` on the scenario list leaves the list unchanged and reports an
error. -/
theorem handleDragEnd_failure_no_mutation_witness :
    handleDragEnd demoProspects ⟨Stage.new, some Stage.closed, "1"⟩ false
        = ⟨demoProspects, true, true⟩ :=
  handleDragEnd_failure_no_mutation demoProspects Stage.new Stage.closed "1"
    (by decide)

/-- Claim C6: a successful deletion of id `pid` yields exactly the original
list with the records of that id removed; consequently the deleted records
no longer contribute to the aggregator's total, per-stage counts, or
pipeline/closed value totals (stated additively: new-list metric plus the
deleted records' metric equals the old metric). -/
theorem handleDeleteProspect_removes_exactly (l : List Prospect) (pid : String) :
    (handleDeleteProspect l pid true).prospects = l.filter (fun p => p.id != pid) ∧
    (∀ p ∈ (handleDeleteProspect l pid true).prospects, p.id ≠ pid) ∧
    totalProspects (handleDeleteProspect l pid true).prospects
      + totalProspects (l.filter (fun p => p.id == pid)) = totalProspects l ∧
    newProspects (handleDeleteProspect l pid true).prospects
      + newProspects (l.filter (fun p => p.id == pid)) = newProspects l ∧
    inTalksProspects (handleDeleteProspect l pid true).prospects
      + inTalksProspects (l.filter (fun p => p.id == pid)) = inTalksProspects l ∧
    closedProspects (handleDeleteProspect l pid true).prospects
      + closedProspects (l.filter (fun p => p.id == pid)) = closedProspects l ∧
    totalValue (handleDeleteProspect l pid true).prospects
      + totalValue (l.filter (fun p => p.id == pid)) = totalValue l ∧
    closedValue (handleDeleteProspect l pid true).prospects
      + closedValue (l.filter (fun p => p.id == pid)) = closedValue l := by
  have hres : (handleDeleteProspect l pid true).prospects
      = l.filter (fun p => p.id != pid) := rfl
  refine ⟨hres, ?_, ?_, ?_, ?_, ?_, ?_, ?_⟩
  · intro p hp
    rw [hres] at hp
    simpa using (List.of_mem_filter hp)
  · rw [hres]
    unfold totalProspects
    simpa [bne] using length_filter_not_add (fun p => p.id == pid) l
  · rw [hres]
    unfold newProspects
    simpa [bne, List.filter_filter] using
      length_filter_and_split (fun p => p.id == pid)
        (fun p => p.stage == Stage.new) l
  · rw [hres]
    unfold inTalksProspects
    simpa [bne, List.filter_filter] using
      length_filter_and_split (fun p => p.id == pid)
        (fun p => p.stage == Stage.in_talks) l
  · rw [hres]
    unfold closedProspects
    simpa [bne, List.filter_filter] using
      length_filter_and_split (fun p => p.id == pid)
        (fun p => p.stage == Stage.closed) l
  · rw [hres]
    unfold totalValue
    rw [foldl_add_eq_sum, foldl_add_eq_sum, foldl_add_eq_sum]
    simpa [bne] using
      sum_filter_not_add (fun p => p.id == pid) (fun p => p.value.getD 0) l
  · rw [hres]
    unfold closedValue
    rw [foldl_add_eq_sum, foldl_add_eq_sum, foldl_add_eq_sum]
    simpa [bne, List.filter_filter] using
      sum_filter_and_split (fun p => p.id == pid)
        (fun p => p.stage == Stage.closed) (fun p => p.value.getD 0) l

/-- Claim C4: a create-form submission with the required fields filled and
every optional field left blank (the stage select at its default) builds an
insert payload with `stage = "new"` and `phone`, `company`, `notes`, `value`
all absent: empty strings are coerced to null, and blank value text is null
rather than `0`. -/
theorem buildProspectData_required_only (uid : String) (f : AddProspectForm)
    (_hname : f.fullName ≠ "") (_hemail : f.email ≠ "")
    (hphone : f.phone = "") (hcompany : f.company = "")
    (hstage : f.stage = "" ∨ f.stage = "new")
    (hvalue : f.value = "") (hnotes : f.notes = "") :
    buildProspectData uid f =
      { user_id := uid, full_name := f.fullName, email := f.email,
        phone := none, company := none, stage := "new", value := none,
        notes := none } := by
  rcases hstage with h | h <;>
    simp [buildProspectData, strOrNull, hphone, hcompany, h, hvalue, hnotes]

/-- Witness for claim C4: a concrete submission with only name and email
filled yields the all-absent payload with stage `"new"`. -/
theorem buildProspectData_required_only_witness :
    buildProspectData "user-1"
        ⟨"Ada Lovelace", "ada@lovelace.io", "", "", "new", "", ""⟩ =
      { user_id := "user-1", full_name := "Ada Lovelace",
        email := "ada@lovelace.io", phone := none, company := none,
        stage := "new", value := none, notes := none } :=
  buildProspectData_required_only "user-1"
    ⟨"Ada Lovelace", "ada@lovelace.io", "", "", "new", "", ""⟩
    (by decide) (by decide) rfl rfl (Or.inr rfl) rfl rfl

/-- Claim C5: the aggregator's pipeline value is the sum of `value` over all
records with absent treated as 0, the closed value is the same sum over
closed-stage records, and when every record's (defaulted) value is
non-negative the closed value is at most the pipeline value. -/
theorem metrics_value_totals (l : List Prospect) :
    totalValue l = (l.map fun p => p.value.getD 0).sum ∧
    closedValue l
      = ((l.filter fun p => p.stage == Stage.closed).map
          fun p => p.value.getD 0).sum ∧
    ((∀ p ∈ l, 0 ≤ p.value.getD 0) → closedValue l ≤ totalValue l) := by
  have htot : totalValue l = (l.map fun p => p.value.getD 0).sum := by
    unfold totalValue
    rw [foldl_add_eq_sum]
    ring
  have hclosed : closedValue l
      = ((l.filter fun p => p.stage == Stage.closed).map
          fun p => p.value.getD 0).sum := by
    unfold closedValue
    rw [foldl_add_eq_sum]
    ring
  refine ⟨htot, hclosed, ?_⟩
  intro hnn
  have hsplit := sum_filter_not_add (fun p => p.stage == Stage.closed)
    (fun p => p.value.getD 0) l
  have hrest : 0 ≤ (((l.filter fun p => !(p.stage == Stage.closed)).map
      fun p => p.value.getD 0).sum) := by
    apply List.sum_nonneg
    intro x hx
    obtain ⟨p, hp, rfl⟩ := List.mem_map.mp hx
    exact hnn p (List.mem_of_mem_filter hp)
  rw [htot, hclosed]
  linarith

/-- Witness for claim C5: on the scenario list (all values present and
non-negative) the closed value 2000 is at most the pipeline value 3500. -/
theorem metrics_value_totals_witness :
    closedValue demoProspects ≤ totalValue demoProspects :=
  (metrics_value_totals demoProspects).2.2 (by
    intro p hp
    fin_cases hp <;> norm_num [dNew, dTalks, dClosed])

/-- Claim C7: a rejected sign-up whose error message contains the substring
`"already registered"` is surfaced as the "Account exists" toast; any other
rejection is surfaced as the generic "Sign up failed" toast carrying the
collaborator's message text verbatim. -/
theorem signUpErrorToast_mapping (m : String) :
    (jsIncludes m "already registered" = true →
      signUpErrorToast m =
        { title := "Account exists"
          description := "This email is already registered. Please sign in instead."
          variant := ToastVariant.destructive }) ∧
    (jsIncludes m "already registered" = false →
      (signUpErrorToast m).title = "Sign up failed" ∧
      (signUpErrorToast m).description = m) := by
  constructor
  · intro h
    simp [signUpErrorToast, h]
  · intro h
    simp [signUpErrorToast, h]

/-- Witness for claim C7 at two concrete identity errors: one containing the
registration substring, one not. -/
theorem signUpErrorToast_mapping_witness :
    signUpErrorToast "User already registered" =
      { title := "Account exists"
        description := "This email is already registered. Please sign in instead."
        variant := ToastVariant.destructive } ∧
    (signUpErrorToast "Invalid password").title = "Sign up failed" ∧
    (signUpErrorToast "Invalid password").description = "Invalid password" :=
  ⟨(signUpErrorToast_mapping "User already registered").1 (by decide),
   (signUpErrorToast_mapping "Invalid password").2 (by decide)⟩

/-- Claim C10: a prospect whose `value` is the number 0 is rendered as if
the value were absent: `formatCurrency` returns the empty string for amount
0 and for an absent amount, and the monetary badge on the card is not
rendered. -/
theorem zero_value_rendered_absent (p : Prospect) (h : p.value = some 0) :
    formatCurrency p.value = "" ∧
    formatCurrency none = "" ∧
    valueBadge p = none := by
  refine ⟨?_, rfl, ?_⟩
  · rw [h]
    simp [formatCurrency]
  · simp [valueBadge, jsTruthyNum, h]

/-- Witness for claim C10 at a concrete zero-value prospect. -/
theorem zero_value_rendered_absent_witness :
    formatCurrency zeroValueProspect.value = "" ∧
    formatCurrency none = "" ∧
    valueBadge zeroValueProspect = none :=
  zero_value_rendered_absent zeroValueProspect rfl

end CRM

